import Mathlib

/-!
Verification development for the mongodb-session-manager repository.

The MongoDB session document is modelled as a structure whose maps
(`metadata`, `agents`) are association lists; MongoDB dotted-path
`$set` / `$unset` updates become map updates on those lists.
Timestamps are natural numbers, opaque payload values are strings.
-/

/-- Association map from string keys to values, modelling a JSON object. -/
abbrev SMap (α : Type) := List (String × α)

/-- Metadata subtree: a string-keyed bag of opaque (string) values. -/
abbrev Meta := SMap String

/-- Lookup of a key in a JSON object (first binding wins, as in a map). -/
def getKey {α : Type} (m : SMap α) (k : String) : Option α :=
  (m.find? (fun p => p.1 = k)).map (fun p => p.2)

/-- MongoDB `$set` of a single dotted path inside an object: replace the
binding when present, append it otherwise. -/
def setKey {α : Type} : SMap α → String → α → SMap α
  | [], k, v => [(k, v)]
  | p :: ps, k, v => if p.1 = k then (k, v) :: ps else p :: setKey ps k v

/-- MongoDB `$unset` of a single dotted path: remove the binding. -/
def removeKey {α : Type} (m : SMap α) (k : String) : SMap α :=
  m.filter (fun p => ¬ p.1 = k)

/-- Apply a `$set` document: set every listed path. -/
def setAll {α : Type} (m : SMap α) (upd : SMap α) : SMap α :=
  upd.foldl (fun acc kv => setKey acc kv.1 kv.2) m

/-- Apply a `$unset` document: remove every listed path. -/
def removeAll {α : Type} (m : SMap α) (ks : List String) : SMap α :=
  ks.foldl (fun acc k => removeKey acc k) m

theorem getKey_nil {α : Type} (k : String) : getKey ([] : SMap α) k = none := rfl

theorem getKey_cons {α : Type} (p : String × α) (ps : SMap α) (k : String) :
    getKey (p :: ps) k = if p.1 = k then some p.2 else getKey ps k := by
  unfold getKey
  by_cases h : p.1 = k
  · rw [List.find?_cons_of_pos _ (by simp [h]), if_pos h]
    rfl
  · rw [List.find?_cons_of_neg _ (by simp [h]), if_neg h]

theorem setKey_cons {α : Type} (p : String × α) (ps : SMap α) (k : String) (v : α) :
    setKey (p :: ps) k v = if p.1 = k then (k, v) :: ps else p :: setKey ps k v := rfl

theorem removeKey_cons {α : Type} (p : String × α) (ps : SMap α) (k : String) :
    removeKey (p :: ps) k = if p.1 = k then removeKey ps k else p :: removeKey ps k := by
  by_cases h : p.1 = k <;> simp [removeKey, List.filter_cons, h]

theorem getKey_setKey {α : Type} (m : SMap α) (k : String) (v : α) (q : String) :
    getKey (setKey m k v) q = if q = k then some v else getKey m q := by
  induction m with
  | nil =>
    show getKey [(k, v)] q = _
    rw [getKey_cons]
    by_cases h : q = k
    · simp [h, getKey_nil]
    · have h' : ¬ k = q := fun hc => h hc.symm
      simp [h, h', getKey_nil]
  | cons p ps ih =>
    rw [setKey_cons]
    by_cases hp : p.1 = k
    · rw [if_pos hp, getKey_cons, getKey_cons]
      by_cases h : q = k
      · simp [h]
      · have h' : ¬ k = q := fun hc => h hc.symm
        have hp' : ¬ p.1 = q := fun hc => h (hc ▸ hp)
        simp [h, h', hp']
    · rw [if_neg hp, getKey_cons, getKey_cons, ih]
      by_cases h : p.1 = q
      · have hqk : ¬ q = k := fun hc => hp (by rw [h, hc])
        simp [h, hqk]
      · simp [h]

theorem getKey_removeKey {α : Type} (m : SMap α) (k : String) (q : String) :
    getKey (removeKey m k) q = if q = k then none else getKey m q := by
  induction m with
  | nil =>
    show getKey [] q = _
    rw [getKey_nil]
    by_cases h : q = k <;> simp [h]
  | cons p ps ih =>
    rw [removeKey_cons]
    by_cases hp : p.1 = k
    · rw [if_pos hp, ih]
      by_cases h : q = k
      · simp [h]
      · have hp' : ¬ p.1 = q := fun hc => h (hc ▸ hp)
        rw [if_neg h, if_neg h, getKey_cons, if_neg hp']
    · rw [if_neg hp, getKey_cons, ih, getKey_cons]
      by_cases h : p.1 = q
      · have hqk : ¬ q = k := fun hc => hp (by rw [h, hc])
        simp [h, hqk]
      · simp [h]

theorem getKey_setAll_not_mem {α : Type} (upd : SMap α) (m : SMap α) (k : String)
    (h : k ∉ upd.map Prod.fst) :
    getKey (setAll m upd) k = getKey m k := by
  induction upd generalizing m with
  | nil => rfl
  | cons p ps ih =>
    simp only [List.map_cons, List.mem_cons] at h
    push_neg at h
    simp only [setAll, List.foldl_cons]
    have hrec := ih (setKey m p.1 p.2) h.2
    simp only [setAll] at hrec
    rw [hrec, getKey_setKey, if_neg h.1]

theorem getKey_setAll_mem {α : Type} (upd : SMap α) (m : SMap α) (k : String) (v : α)
    (hnd : (upd.map Prod.fst).Nodup) (hv : getKey upd k = some v) :
    getKey (setAll m upd) k = some v := by
  induction upd generalizing m with
  | nil => simp [getKey] at hv
  | cons p ps ih =>
    simp only [List.map_cons, List.nodup_cons] at hnd
    rw [getKey_cons] at hv
    simp only [setAll, List.foldl_cons]
    by_cases h : p.1 = k
    · rw [if_pos h] at hv
      have hnotin : k ∉ ps.map Prod.fst := h ▸ hnd.1
      have hframe := getKey_setAll_not_mem ps (setKey m p.1 p.2) k hnotin
      simp only [setAll] at hframe
      rw [hframe, getKey_setKey, if_pos h.symm]
      exact hv
    · rw [if_neg h] at hv
      exact ih (setKey m p.1 p.2) hnd.2 hv

theorem getKey_removeAll {α : Type} (ks : List String) (m : SMap α) (k : String) :
    getKey (removeAll m ks) k = if k ∈ ks then none else getKey m k := by
  induction ks generalizing m with
  | nil => simp [removeAll]
  | cons c cs ih =>
    simp only [removeAll, List.foldl_cons] at ih ⊢
    rw [ih (removeKey m c), getKey_removeKey]
    by_cases h1 : k ∈ cs
    · simp [h1]
    · by_cases h2 : k = c <;> simp [h1, h2]

/-! ## The session document (mongodb_session_repository.py schema) -/

/-- Simplified per-tool execution statistics kept by `_extract_tool_usage`
(fractional quantities are modelled as naturals). -/
structure ToolStats where
  call_count : Nat
  success_count : Nat
  error_count : Nat
  total_time : Nat
  average_time : Nat
  success_rate : Nat
deriving Repr, DecidableEq

/-- The `accumulated_usage` block stored on a message. -/
structure UsageData where
  inputTokens : Nat
  outputTokens : Nat
  totalTokens : Nat
  cacheReadInputTokens : Nat
  cacheWriteInputTokens : Nat
deriving Repr, DecidableEq

/-- The `accumulated_metrics` block stored on a message. -/
structure MetricsData where
  latencyMs : Nat
  timeToFirstByteMs : Nat
deriving Repr, DecidableEq

/-- The `cycle_metrics` block stored on a message. -/
structure CycleData where
  cycle_count : Nat
  total_duration : Nat
  average_cycle_time : Nat
deriving Repr, DecidableEq

/-- The `event_loop_metrics` subtree written by `sync_agent`. -/
structure EventLoopMetrics where
  accumulated_metrics : MetricsData
  accumulated_usage : UsageData
  cycle_metrics : CycleData
  tool_usage : SMap ToolStats
deriving Repr, DecidableEq

/-- One entry of an agent's `messages` array. -/
structure MessageEntry where
  message_id : Nat
  role : String
  content : String
  created_at : Nat
  updated_at : Nat
  event_loop_metrics : Option EventLoopMetrics
deriving Repr, DecidableEq

/-- One value of the `agents` map of a session document. -/
structure AgentDoc where
  agent_data : Meta
  messages : List MessageEntry
  created_at : Nat
  updated_at : Nat
deriving Repr, DecidableEq

/-- One entry of the `feedbacks` array (user payload plus server stamp). -/
structure FeedbackEntry where
  payload : Meta
  created_at : Nat
deriving Repr, DecidableEq

/-- A session document, keyed by `_id = session_id`. -/
structure SessionDoc where
  session_id : String
  application_name : Option String
  session_type : String
  session_viewer_password : String
  created_at : Nat
  updated_at : Nat
  metadata : Meta
  agents : SMap AgentDoc
  feedbacks : List FeedbackEntry
deriving Repr, DecidableEq

/-! ## Repository metadata operations (mongodb_session_repository.py) -/

/-- `MongoDBSessionRepository.update_metadata`: a single `update_one` whose
`$set` document contains exactly one dotted path `metadata.<key>` per entry
of the argument dictionary, and nothing else. -/
def update_metadata (doc : SessionDoc) (metadata : Meta) : SessionDoc :=
  { doc with metadata := setAll doc.metadata metadata }

/-- `MongoDBSessionRepository.delete_metadata`: a single `update_one` whose
`$unset` document contains exactly one dotted path `metadata.<key>` per
listed key, and nothing else. -/
def delete_metadata (doc : SessionDoc) (metadata_keys : List String) : SessionDoc :=
  { doc with metadata := removeAll doc.metadata metadata_keys }

/-- Claim C2 as stated: metadata update/delete touch exactly the named
metadata keys and additionally bump the session `updated_at`. -/
def C2Claim : Prop :=
  (∀ (doc : SessionDoc) (m : Meta), m ≠ [] →
    (∀ k, k ∉ m.map Prod.fst →
      getKey (update_metadata doc m).metadata k = getKey doc.metadata k)
    ∧ (update_metadata doc m).updated_at ≠ doc.updated_at)
  ∧ (∀ (doc : SessionDoc) (ks : List String), ks ≠ [] →
    (∀ k, k ∈ ks → getKey (delete_metadata doc ks).metadata k = none)
    ∧ (delete_metadata doc ks).updated_at ≠ doc.updated_at)

/-- A concrete session document used by several concrete evaluations. -/
def doc0 : SessionDoc :=
  { session_id := "s1"
    application_name := some "demo"
    session_type := "chat"
    session_viewer_password := "pw"
    created_at := 1
    updated_at := 5
    metadata := [("a", "1"), ("b", "2"), ("c", "3")]
    agents := []
    feedbacks := [] }

/-- C2 counterexample: the `$set` document of `update_metadata` (and the
`$unset` document of `delete_metadata`) contain only `metadata.*` paths, so
the session `updated_at` is left untouched, contradicting the claimed bump. -/
theorem C2_counterexample : ¬ C2Claim := by
  intro h
  have h1 := (h.1 doc0 [("b", "20")] (by simp)).2
  exact h1 rfl

/-- C2 (amended): `update_metadata` changes exactly the `metadata.k` bindings
for the keys of the argument mapping and `delete_metadata` removes exactly
the listed keys; every other metadata key and every other document field —
including the session `updated_at`, which is *not* bumped — is unchanged. -/
theorem C2_metadata_ops_frame (doc : SessionDoc) (m : Meta) (ks : List String)
    (hnd : (m.map Prod.fst).Nodup) :
    ((update_metadata doc m).session_id = doc.session_id
      ∧ (update_metadata doc m).application_name = doc.application_name
      ∧ (update_metadata doc m).session_type = doc.session_type
      ∧ (update_metadata doc m).session_viewer_password = doc.session_viewer_password
      ∧ (update_metadata doc m).created_at = doc.created_at
      ∧ (update_metadata doc m).updated_at = doc.updated_at
      ∧ (update_metadata doc m).agents = doc.agents
      ∧ (update_metadata doc m).feedbacks = doc.feedbacks)
    ∧ (∀ k, k ∉ m.map Prod.fst →
        getKey (update_metadata doc m).metadata k = getKey doc.metadata k)
    ∧ (∀ k v, getKey m k = some v →
        getKey (update_metadata doc m).metadata k = some v)
    ∧ ((delete_metadata doc ks).session_id = doc.session_id
      ∧ (delete_metadata doc ks).application_name = doc.application_name
      ∧ (delete_metadata doc ks).session_type = doc.session_type
      ∧ (delete_metadata doc ks).session_viewer_password = doc.session_viewer_password
      ∧ (delete_metadata doc ks).created_at = doc.created_at
      ∧ (delete_metadata doc ks).updated_at = doc.updated_at
      ∧ (delete_metadata doc ks).agents = doc.agents
      ∧ (delete_metadata doc ks).feedbacks = doc.feedbacks)
    ∧ (∀ k, k ∈ ks → getKey (delete_metadata doc ks).metadata k = none)
    ∧ (∀ k, k ∉ ks →
        getKey (delete_metadata doc ks).metadata k = getKey doc.metadata k) := by
  refine ⟨⟨rfl, rfl, rfl, rfl, rfl, rfl, rfl, rfl⟩, ?_, ?_,
    ⟨rfl, rfl, rfl, rfl, rfl, rfl, rfl, rfl⟩, ?_, ?_⟩
  · intro k hk
    exact getKey_setAll_not_mem m doc.metadata k hk
  · intro k v hv
    exact getKey_setAll_mem m doc.metadata k v hnd hv
  · intro k hk
    simp [delete_metadata, getKey_removeAll, hk]
  · intro k hk
    simp [delete_metadata, getKey_removeAll, hk]

/-- C2 witness: the frame theorem applied to a concrete document, with a
concrete update `b ↦ 20` and a concrete delete of `a`. -/
theorem C2_metadata_ops_frame_witness :
    getKey (update_metadata doc0 [("b", "20")]).metadata "c" = getKey doc0.metadata "c"
    ∧ getKey (update_metadata doc0 [("b", "20")]).metadata "b" = some "20"
    ∧ (update_metadata doc0 [("b", "20")]).updated_at = doc0.updated_at
    ∧ getKey (delete_metadata doc0 ["a"]).metadata "a" = none
    ∧ getKey (delete_metadata doc0 ["a"]).metadata "c" = getKey doc0.metadata "c" := by
  have h := C2_metadata_ops_frame doc0 [("b", "20")] ["a"] (by simp)
  exact ⟨h.2.1 "c" (by simp), h.2.2.1 "b" "20" (by simp [getKey, List.find?]),
    h.1.2.2.2.2.2.1, h.2.2.2.2.1 "a" (by simp), h.2.2.2.2.2 "c" (by simp)⟩

/-! ## Agent update (mongodb_session_repository.py, update_agent) -/

/-- `MongoDBSessionRepository.update_agent`: reads the existing agent's
`created_at` (defaulting to `now` when absent), then issues one `$set`
touching exactly `agents.<id>.agent_data`, `agents.<id>.updated_at`,
`agents.<id>.created_at` (rewritten to the preserved value) and the session
`updated_at`. -/
def update_agent (doc : SessionDoc) (agent_id : String) (agent_data : Meta)
    (now : Nat) : SessionDoc :=
  let preserved : Nat :=
    match getKey doc.agents agent_id with
    | some a => a.created_at
    | none => now
  let agentDoc : AgentDoc :=
    match getKey doc.agents agent_id with
    | some a =>
        { a with agent_data := agent_data, created_at := preserved, updated_at := now }
    | none =>
        { agent_data := agent_data, messages := [], created_at := preserved,
          updated_at := now }
  { doc with agents := setKey doc.agents agent_id agentDoc, updated_at := now }

/-- C7: for an agent already present in the session, `update_agent` keeps the
agent's `created_at` equal to its prior value and its messages intact,
changes only `agent_data` and the two `updated_at` stamps, and leaves every
other agent and every other session field unchanged. -/
theorem C7_update_agent_preserves_created_at (doc : SessionDoc) (agent_id : String)
    (agent_data : Meta) (now : Nat) (a : AgentDoc)
    (ha : getKey doc.agents agent_id = some a) :
    getKey (update_agent doc agent_id agent_data now).agents agent_id
      = some { a with agent_data := agent_data, created_at := a.created_at,
                      updated_at := now }
    ∧ (∀ other, other ≠ agent_id →
        getKey (update_agent doc agent_id agent_data now).agents other
          = getKey doc.agents other)
    ∧ (update_agent doc agent_id agent_data now).updated_at = now
    ∧ (update_agent doc agent_id agent_data now).session_id = doc.session_id
    ∧ (update_agent doc agent_id agent_data now).application_name = doc.application_name
    ∧ (update_agent doc agent_id agent_data now).session_type = doc.session_type
    ∧ (update_agent doc agent_id agent_data now).session_viewer_password
        = doc.session_viewer_password
    ∧ (update_agent doc agent_id agent_data now).created_at = doc.created_at
    ∧ (update_agent doc agent_id agent_data now).metadata = doc.metadata
    ∧ (update_agent doc agent_id agent_data now).feedbacks = doc.feedbacks := by
  refine ⟨?_, ?_, rfl, rfl, rfl, rfl, rfl, rfl, rfl, rfl⟩
  · show getKey (setKey doc.agents agent_id _) agent_id = _
    rw [getKey_setKey, if_pos rfl]
    simp only [update_agent, ha]
  · intro other hother
    show getKey (setKey doc.agents agent_id _) other = _
    rw [getKey_setKey, if_neg hother]

/-- A concrete document holding one agent with two messages, used as witness
input. -/
def doc1 : SessionDoc :=
  { session_id := "s2"
    application_name := none
    session_type := "chat"
    session_viewer_password := "pw2"
    created_at := 1
    updated_at := 4
    metadata := []
    agents := [("a", { agent_data := [("state", "old")]
                       messages :=
                        [{ message_id := 0, role := "user", content := "hi",
                           created_at := 2, updated_at := 2,
                           event_loop_metrics := none },
                         { message_id := 1, role := "assistant", content := "hello",
                           created_at := 3, updated_at := 3,
                           event_loop_metrics := none }]
                       created_at := 2
                       updated_at := 3 })]
    feedbacks := [] }

/-- C7 witness: updating agent `a` of `doc1` at time 9 keeps `created_at = 2`
and the messages, and rewrites `agent_data`. -/
theorem C7_update_agent_preserves_created_at_witness :
    (getKey (update_agent doc1 "a" [("state", "new")] 9).agents "a").map
        AgentDoc.created_at = some 2
    ∧ (getKey (update_agent doc1 "a" [("state", "new")] 9).agents "a").map
        AgentDoc.agent_data = some [("state", "new")]
    ∧ (update_agent doc1 "a" [("state", "new")] 9).updated_at = 9
    ∧ (update_agent doc1 "a" [("state", "new")] 9).metadata = doc1.metadata := by
  have h := C7_update_agent_preserves_created_at doc1 "a" [("state", "new")] 9
    { agent_data := [("state", "old")]
      messages :=
        [{ message_id := 0, role := "user", content := "hi",
           created_at := 2, updated_at := 2, event_loop_metrics := none },
         { message_id := 1, role := "assistant", content := "hello",
           created_at := 3, updated_at := 3, event_loop_metrics := none }]
      created_at := 2
      updated_at := 3 } rfl
  refine ⟨?_, ?_, h.2.2.1, h.2.2.2.2.2.2.2.2.1⟩
  · rw [h.1]; rfl
  · rw [h.1]; rfl

/-! ## Agent runtime objects and sync (mongodb_session_manager.py) -/

/-- The slice of a runtime `Agent` object read by `sync_agent`:
`agent.model` (with its `config` dict, `model_id` attribute and string
representation) and `agent.system_prompt`. `none` models an absent or falsy
attribute. -/
structure PyModel where
  config_model_id : Option String
  model_id_attr : Option String
  str_repr : String
deriving Repr, DecidableEq

/-- A runtime agent as seen by the session manager. -/
structure PyAgent where
  agent_id : String
  model : Option PyModel
  system_prompt : Option String
deriving Repr, DecidableEq

/-- `MongoDBSessionManager._extract_model_id`: `agent.model.config["model_id"]`
when truthy, else `getattr(agent.model, "model_id", str(agent.model))`;
`None` when `agent.model` is absent or falsy. -/
def extract_model_id (agent : PyAgent) : Option String :=
  match agent.model with
  | none => none
  | some m =>
      match m.config_model_id with
      | some mid => if mid = "" then some (m.model_id_attr.getD m.str_repr) else some mid
      | none => some (m.model_id_attr.getD m.str_repr)

/-- The `$set` document issued by `_capture_agent_config`: the `model` and
`system_prompt` component of `agents.<id>.agent_data`, each present only
when the corresponding value is truthy. -/
structure AgentConfigWrite where
  model : Option String
  system_prompt : Option String
deriving Repr, DecidableEq

/-- `MongoDBSessionManager._capture_agent_config`: builds the update dict
(`model` only if `_extract_model_id` is truthy, `system_prompt` only if the
attribute is truthy) and issues the `update_one` only when the dict is
non-empty; `none` means no write at all. -/
def capture_agent_config (agent : PyAgent) : Option AgentConfigWrite :=
  let model_id : Option String :=
    match extract_model_id agent with
    | some mid => if mid = "" then none else some mid
    | none => none
  let sp : Option String :=
    match agent.system_prompt with
    | some s => if s = "" then none else some s
    | none => none
  match model_id, sp with
  | none, none => none
  | _, _ => some { model := model_id, system_prompt := sp }

/-- The raw per-tool record of the metrics summary; `tool_info` is dropped
by `_extract_tool_usage`. -/
structure ToolRaw where
  tool_info : Meta
  execution_stats : ToolStats
deriving Repr, DecidableEq

/-- `MongoDBSessionManager._extract_tool_usage`: keep only the
`execution_stats` fields of each tool. -/
def extract_tool_usage (raw : SMap ToolRaw) : SMap ToolStats :=
  raw.map (fun p => (p.1, p.2.execution_stats))

/-- The structured metrics summary read from
`agent.event_loop_metrics.get_summary()` (absent numbers default to 0 via
`.get(..., 0)`, so they are plain naturals here). -/
structure MetricsSummary where
  latencyMs : Nat
  timeToFirstByteMs : Nat
  inputTokens : Nat
  outputTokens : Nat
  totalTokens : Nat
  cacheReadInputTokens : Nat
  cacheWriteInputTokens : Nat
  total_cycles : Nat
  total_duration : Nat
  average_cycle_time : Nat
  tool_usage : SMap ToolRaw
deriving Repr, DecidableEq

/-- `_update_last_message_metrics` locates the agent's last message via a
`$slice: -1` projection; `none` when the agent or its messages are absent. -/
def lastMessage (doc : SessionDoc) (agent_id : String) : Option MessageEntry :=
  match getKey doc.agents agent_id with
  | some a => a.messages.getLast?
  | none => none

/-- The database writes issued by the body of
`MongoDBSessionManager.sync_agent` (after the SDK-level super call):
the optional per-message metrics update (selector = the last message's
`message_id`) and the optional agent-config update. -/
structure SyncWrites where
  message_metrics : Option (Nat × EventLoopMetrics)
  agent_config : Option AgentConfigWrite
deriving Repr, DecidableEq

/-- `MongoDBSessionManager.sync_agent`: the metrics update happens only when
`latencyMs > 0` and a last message exists; the config capture always runs. -/
def sync_agent_writes (agent : PyAgent) (summary : MetricsSummary)
    (doc : SessionDoc) : SyncWrites :=
  let mm : Option (Nat × EventLoopMetrics) :=
    if summary.latencyMs > 0 then
      match lastMessage doc agent.agent_id with
      | some msg =>
          some (msg.message_id,
            { accumulated_metrics :=
                { latencyMs := summary.latencyMs
                  timeToFirstByteMs := summary.timeToFirstByteMs }
              accumulated_usage :=
                { inputTokens := summary.inputTokens
                  outputTokens := summary.outputTokens
                  totalTokens := summary.totalTokens
                  cacheReadInputTokens := summary.cacheReadInputTokens
                  cacheWriteInputTokens := summary.cacheWriteInputTokens }
              cycle_metrics :=
                { cycle_count := summary.total_cycles
                  total_duration := summary.total_duration
                  average_cycle_time := summary.average_cycle_time }
              tool_usage := extract_tool_usage summary.tool_usage })
      | none => none
    else none
  { message_metrics := mm, agent_config := capture_agent_config agent }

/-- The `agent_data.model` value written by a sync, if any. -/
def writtenModel (w : SyncWrites) : Option String :=
  match w.agent_config with
  | some c => c.model
  | none => none

/-- The `agent_data.system_prompt` value written by a sync, if any. -/
def writtenPrompt (w : SyncWrites) : Option String :=
  match w.agent_config with
  | some c => c.system_prompt
  | none => none

/-- C5: a sync whose summary has `latencyMs = 0` issues no
`event_loop_metrics` write, yet still writes both `agent_data.model` and
`agent_data.system_prompt` when the agent carries a model identifier and a
non-empty system prompt. -/
theorem C5_sync_zero_latency (agent : PyAgent) (summary : MetricsSummary)
    (doc : SessionDoc) (mid sp : String)
    (hlat : summary.latencyMs = 0)
    (hmid : extract_model_id agent = some mid) (hmid' : mid ≠ "")
    (hsp : agent.system_prompt = some sp) (hsp' : sp ≠ "") :
    (sync_agent_writes agent summary doc).message_metrics = none
    ∧ writtenModel (sync_agent_writes agent summary doc) = some mid
    ∧ writtenPrompt (sync_agent_writes agent summary doc) = some sp := by
  refine ⟨?_, ?_, ?_⟩
  · simp [sync_agent_writes, hlat]
  · simp [writtenModel, sync_agent_writes, capture_agent_config, hmid, hmid', hsp, hsp']
  · simp [writtenPrompt, sync_agent_writes, capture_agent_config, hmid, hmid', hsp, hsp']

/-- A concrete agent carrying a model id and a system prompt. -/
def agent0 : PyAgent :=
  { agent_id := "a"
    model := some { config_model_id := some "claude-3-sonnet"
                    model_id_attr := none
                    str_repr := "Model()" }
    system_prompt := some "You are helpful" }

/-- A summary whose `latencyMs` is zero. -/
def summary0 : MetricsSummary :=
  { latencyMs := 0, timeToFirstByteMs := 0, inputTokens := 0, outputTokens := 0,
    totalTokens := 0, cacheReadInputTokens := 0, cacheWriteInputTokens := 0,
    total_cycles := 0, total_duration := 0, average_cycle_time := 0,
    tool_usage := [] }

/-- C5 witness: syncing `agent0` with a zero-latency summary over `doc1`
writes no metrics but records model and prompt. -/
theorem C5_sync_zero_latency_witness :
    (sync_agent_writes agent0 summary0 doc1).message_metrics = none
    ∧ writtenModel (sync_agent_writes agent0 summary0 doc1) = some "claude-3-sonnet"
    ∧ writtenPrompt (sync_agent_writes agent0 summary0 doc1) = some "You are helpful" :=
  C5_sync_zero_latency agent0 summary0 doc1 "claude-3-sonnet" "You are helpful"
    rfl rfl (by decide) rfl (by decide)

/-- C10: when no model identifier can be extracted the stored model is left
unchanged, when the system prompt is absent or empty the stored prompt is
left unchanged, and when neither value is available no configuration write
is issued at all. -/
theorem C10_capture_agent_config_frame (agent : PyAgent) (summary : MetricsSummary)
    (doc : SessionDoc) :
    (extract_model_id agent = none →
      writtenModel (sync_agent_writes agent summary doc) = none)
    ∧ ((agent.system_prompt = none ∨ agent.system_prompt = some "") →
      writtenPrompt (sync_agent_writes agent summary doc) = none)
    ∧ (extract_model_id agent = none →
        (agent.system_prompt = none ∨ agent.system_prompt = some "") →
      (sync_agent_writes agent summary doc).agent_config = none) := by
  refine ⟨?_, ?_, ?_⟩
  · intro hm
    rcases hsp : agent.system_prompt with _ | s
    · simp [writtenModel, sync_agent_writes, capture_agent_config, hm, hsp]
    · by_cases hs : s = "" <;>
        simp [writtenModel, sync_agent_writes, capture_agent_config, hm, hsp, hs]
  · intro hsp
    rcases hm : extract_model_id agent with _ | mid
    · rcases hsp with hsp | hsp <;>
        simp [writtenPrompt, sync_agent_writes, capture_agent_config, hm, hsp]
    · by_cases hmid : mid = "" <;> rcases hsp with hsp | hsp <;>
        simp [writtenPrompt, sync_agent_writes, capture_agent_config, hm, hsp, hmid]
  · intro hm hsp
    rcases hsp with hsp | hsp <;>
      simp [sync_agent_writes, capture_agent_config, hm, hsp]

/-- An agent with no extractable model and an empty system prompt. -/
def agent1 : PyAgent :=
  { agent_id := "a", model := none, system_prompt := some "" }

/-- C10 witness: syncing `agent1` issues no config write at all. -/
theorem C10_capture_agent_config_frame_witness :
    writtenModel (sync_agent_writes agent1 summary0 doc1) = none
    ∧ writtenPrompt (sync_agent_writes agent1 summary0 doc1) = none
    ∧ (sync_agent_writes agent1 summary0 doc1).agent_config = none := by
  have h := C10_capture_agent_config_frame agent1 summary0 doc1
  exact ⟨h.1 rfl, h.2.1 (Or.inr rfl), h.2.2 rfl (Or.inr rfl)⟩

/-! ## Hook dispatcher (mongodb_session_manager.py, _apply_metadata_hook /
_apply_feedback_hook) and the canonical SQS hook
(hooks/metadata_sqs_hook.py) -/

/-- An effectful store operation: it may raise (`Except.error`) or return the
new persisted state. -/
abbrev StoreOp := SessionDoc → Except String SessionDoc

/-- A metadata hook as received by `_apply_metadata_hook`: it gets the
original bound method, the action name, the session id and the payload, and
produces the operation that actually runs. -/
abbrev MetadataHook := (Meta → StoreOp) → String → String → Meta → StoreOp

/-- The wrapper installed by `_apply_metadata_hook` over `update_metadata`:
`wrapped_update(metadata) = hook(original_update, "update", session_id,
metadata=metadata)` — the dispatcher delegates the whole call to the hook. -/
def wrapped_update_metadata (hook : MetadataHook) (original_update : Meta → StoreOp)
    (session_id : String) (metadata : Meta) : StoreOp :=
  hook original_update "update" session_id metadata

/-- The unwrapped `update_metadata` bound method: the repository write,
always succeeding here (the database itself is up). -/
def original_update_metadata : Meta → StoreOp :=
  fun m doc => Except.ok (update_metadata doc m)

/-- Claim C1 as stated: for *every* hook, a hook exception neither reaches
the caller nor affects the persisted state, and the repository write is
executed first — so whenever the underlying write succeeds the caller sees
exactly that successful write, whatever the hook does. -/
def C1Claim : Prop :=
  ∀ (hook : MetadataHook) (sid : String) (m : Meta) (doc : SessionDoc),
    wrapped_update_metadata hook original_update_metadata sid m doc
      = Except.ok (update_metadata doc m)

/-- A hook that raises immediately, before calling the original function. -/
def raisingHook : MetadataHook :=
  fun _ _ _ _ _ => Except.error "hook raised"

/-- C1 counterexample: the dispatcher passes the original write *to* the
hook; `raisingHook` never calls it, so the exception propagates to the
caller and the write is skipped — the claim fails for this hook. -/
theorem C1_counterexample : ¬ C1Claim := by
  intro h
  have := h raisingHook "s1" [("k", "v")] doc0
  simp [wrapped_update_metadata, raisingHook] at this

/-- Whether the SQS send would fail, modelling the external side effect. -/
inductive SendOutcome where
  | sent
  | failed (e : String)
deriving Repr, DecidableEq

/-- `metadata_hook_wrapper` of the canonical SQS metadata hook, `update`
arm: the original function is called first; only afterwards is the SQS
dispatch attempted, and every exception of that dispatch (and of the send
inside `on_metadata_change`) is caught and logged. The boolean records
whether the side effect was attempted. -/
def sqs_metadata_hook_update (send : SendOutcome) (original_func : Meta → StoreOp)
    (session_id : String) (metadata : Meta) (doc : SessionDoc) :
    Except String SessionDoc × Bool :=
  match original_func metadata doc with
  | Except.ok doc' =>
      match send with
      | SendOutcome.sent => (Except.ok doc', true)
      | SendOutcome.failed _ => (Except.ok doc', true)
  | Except.error e => (Except.error e, false)

/-- Whether a store result is a success. -/
def storeOk (r : Except String SessionDoc) : Bool :=
  match r with
  | Except.ok _ => true
  | Except.error _ => false

/-- C1 (amended): the dispatcher delegates the call to the hook, so the
guarantee holds for hooks of the canonical shape rather than for arbitrary
ones. For the shipped SQS metadata hook: the repository write runs first
and its result is exactly what the caller sees — independent of whether the
SQS side effect fails — and the side effect is attempted precisely when the
write succeeded. -/
theorem C1_sqs_hook_write_first (send : SendOutcome) (orig : Meta → StoreOp)
    (sid : String) (m : Meta) (doc : SessionDoc) :
    (sqs_metadata_hook_update send orig sid m doc).1 = orig m doc
    ∧ (sqs_metadata_hook_update send orig sid m doc).2 = storeOk (orig m doc) := by
  rcases h : orig m doc with d | e
  · cases send <;> simp [sqs_metadata_hook_update, storeOk, h]
  · cases send <;> simp [sqs_metadata_hook_update, storeOk, h]

/-! ## Factory (mongodb_session_factory.py) -/

/-- The per-manager defaults held by `MongoDBSessionManagerFactory`. -/
structure FactoryDefaults where
  database_name : String
  collection_name : String
  metadata_fields : Option (List String)
deriving Repr, DecidableEq

/-- The constructor arguments of the `MongoDBSessionManager` built by the
factory. -/
structure ManagerParams where
  session_id : String
  database_name : String
  collection_name : String
  metadata_fields : Option (List String)
deriving Repr, DecidableEq

/-- Python `override or default`: an absent (`None`) *or falsy* override
falls back to the default. -/
def orDefaultStr (override : Option String) (default : String) : String :=
  match override with
  | some s => if s = "" then default else s
  | none => default

/-- Python `override or default` for the optional list of metadata fields
(`None` and the empty list are both falsy). -/
def orDefaultFields (override : Option (List String)) (default : Option (List String)) :
    Option (List String) :=
  match override with
  | some l => if l = [] then default else some l
  | none => default

/-- `MongoDBSessionManagerFactory.create_session_manager`: each override is
combined with the factory default via Python `or`. -/
def create_session_manager (f : FactoryDefaults) (session_id : String)
    (database_name : Option String) (collection_name : Option String)
    (metadata_fields : Option (List String)) : ManagerParams :=
  { session_id := session_id
    database_name := orDefaultStr database_name f.database_name
    collection_name := orDefaultStr collection_name f.collection_name
    metadata_fields := orDefaultFields metadata_fields f.metadata_fields }

/-- Claim C6 as stated: a `None` override falls back to the factory default
and *any* non-`None` override — the empty string and the empty list
included — is used verbatim. -/
def C6Claim : Prop :=
  ∀ (f : FactoryDefaults) (sid : String),
    (create_session_manager f sid none none none).database_name = f.database_name
    ∧ (∀ s, (create_session_manager f sid (some s) none none).database_name = s)
    ∧ (∀ s, (create_session_manager f sid none (some s) none).collection_name = s)
    ∧ (∀ l, (create_session_manager f sid none none (some l)).metadata_fields = some l)

/-- C6 counterexample: overriding `database_name` with the empty string is
falsy under Python `or`, so the factory default wins instead of the
verbatim override. -/
theorem C6_counterexample : ¬ C6Claim := by
  intro h
  have := (h { database_name := "default_db", collection_name := "c",
               metadata_fields := none } "s1").2.1 ""
  simp [create_session_manager, orDefaultStr] at this

/-- C6 (amended): a `None` override falls back to the factory default, and
so do the *falsy* overrides (empty string, empty list) because the factory
combines them with `or`; any truthy override is used verbatim. -/
theorem C6_create_session_manager_overrides (f : FactoryDefaults) (sid : String)
    (s l : String) (fields : List String)
    (hs : s ≠ "") (hl : l ≠ "") (hf : fields ≠ []) :
    (create_session_manager f sid none none none)
      = { session_id := sid, database_name := f.database_name,
          collection_name := f.collection_name,
          metadata_fields := f.metadata_fields }
    ∧ (create_session_manager f sid (some "") (some "") (some []))
      = { session_id := sid, database_name := f.database_name,
          collection_name := f.collection_name,
          metadata_fields := f.metadata_fields }
    ∧ (create_session_manager f sid (some s) (some l) (some fields))
      = { session_id := sid, database_name := s, collection_name := l,
          metadata_fields := some fields } := by
  refine ⟨rfl, ?_, ?_⟩
  · simp [create_session_manager, orDefaultStr, orDefaultFields]
  · simp [create_session_manager, orDefaultStr, orDefaultFields, hs, hl, hf]

/-- C6 witness: concrete defaults with a truthy and a falsy override. -/
theorem C6_create_session_manager_overrides_witness :
    (create_session_manager
        { database_name := "default_db", collection_name := "default_coll",
          metadata_fields := some ["priority"] }
        "s1" (some "") (some "") (some [])).database_name = "default_db"
    ∧ (create_session_manager
        { database_name := "default_db", collection_name := "default_coll",
          metadata_fields := some ["priority"] }
        "s1" (some "other_db") (some "other_coll")
        (some ["status"])).database_name = "other_db" := by
  have h := C6_create_session_manager_overrides
    { database_name := "default_db", collection_name := "default_coll",
      metadata_fields := some ["priority"] }
    "s1" "other_db" "other_coll" ["status"]
    (by decide) (by decide) (by simp)
  refine ⟨?_, ?_⟩
  · rw [h.2.1]
  · rw [h.2.2]

/-! ## Viewer search query (session_viewer/backend/main.py,
build_search_query) -/

/-- A condition of the MongoDB query built by the viewer. -/
inductive QueryCond where
  | regex_i (pattern : String)
  | exact (value : String)
  | dateRange (gte : Option Nat) (lte : Option Nat)
deriving Repr, DecidableEq

/-- Python `key.startswith(p)`, written over the character lists so that it
evaluates by kernel reduction. -/
def strStartsWith (s p : String) : Bool :=
  List.isPrefixOf p.data s.data

/-- `build_search_query`: metadata filter values become case-insensitive
`$regex` conditions with the *raw* value as pattern, other filter keys are
matched exactly, a truthy `session_id` becomes a raw case-insensitive
`$regex` on `session_id`, and the dates an inclusive range. `filters_dict`
is the already-parsed JSON filter object (`none` for an absent, empty or
unparseable `filters` parameter, which contributes nothing). -/
def build_search_query (filters_dict : Option Meta) (session_id : Option String)
    (created_at_start created_at_end : Option Nat) : SMap QueryCond :=
  let q1 : SMap QueryCond :=
    match filters_dict with
    | some fs =>
        fs.map (fun p =>
          if strStartsWith p.1 "metadata." then (p.1, QueryCond.regex_i p.2)
          else (p.1, QueryCond.exact p.2))
    | none => []
  let q2 : SMap QueryCond :=
    match session_id with
    | some sid => if sid = "" then q1 else q1 ++ [("session_id", QueryCond.regex_i sid)]
    | none => q1
  match created_at_start, created_at_end with
  | none, none => q2
  | s, e => q2 ++ [("created_at", QueryCond.dateRange s e)]

/-- Modelled from the spec: the escaping the spec requires for every value
placed into a regex ("must be escaped to neutralize regex metacharacters"),
with Python `re.escape` semantics — each character that is not an ASCII
letter, digit or underscore is preceded by a backslash, so the resulting
pattern matches the value literally. This function is absent from the
source. -/
def re_escape (s : String) : String :=
  String.mk (s.data.foldr
    (fun c acc => if c.isAlphanum || c = '_' then c :: acc else '\\' :: c :: acc) [])

/-- Claim C3 as stated: every user-supplied value placed into a regex of the
search query is escaped, i.e. the pattern stored in the query is the
escaped form of the value. -/
def C3Claim : Prop :=
  (∀ (fs : Meta) (k v : String), strStartsWith k "metadata." = true → (k, v) ∈ fs →
    (k, QueryCond.regex_i (re_escape v)) ∈ build_search_query (some fs) none none none)
  ∧ (∀ sid : String, sid ≠ "" →
    ("session_id", QueryCond.regex_i (re_escape sid))
      ∈ build_search_query none (some sid) none none)

/-- C3: at the failing input — a metadata filter value `a+b` and a
session-id substring `c(d` — the built query carries the raw values as
regex patterns, not their escaped forms: the stored patterns differ from
the escaping the spec mandates, so metacharacters are interpreted instead
of matched literally. -/
theorem C3_unescaped_regex_at_failing_input :
    build_search_query (some [("metadata.x", "a+b")]) (some "c(d") none none
      = [("metadata.x", QueryCond.regex_i "a+b"),
         ("session_id", QueryCond.regex_i "c(d")]
    ∧ re_escape "a+b" = "a\\+b"
    ∧ "a+b" ≠ re_escape "a+b"
    ∧ "c(d" ≠ re_escape "c(d"
    ∧ ¬ C3Claim := by
  refine ⟨by decide, rfl, by decide, by decide, ?_⟩
  intro h
  have hmem := h.1 [("metadata.x", "a+b")] "metadata.x" "a+b" (by decide)
    (by simp)
  revert hmem
  decide

/-! ## Viewer access control (session_viewer/backend/main.py,
validate_session_password) -/

/-- The result reported by the session password validator. -/
structure PasswordCheck where
  valid : Bool
  used_global : Bool
deriving Repr, DecidableEq

/-- `validate_session_password`, parameterized by the hash function `H`
(SHA-256 hex digest, external to the repository): when the session document
carries a `session_viewer_password` its digest is compared first; on any
miss the presented hash is compared against the global digest; `stored` is
`none` when the session is missing or has no such field. -/
def validate_session_password (H : String → String) (stored : Option String)
    (password_hash : String) (global_password_hash : String) : PasswordCheck :=
  match stored with
  | some session_password =>
      if password_hash = H session_password then { valid := true, used_global := false }
      else if password_hash = global_password_hash then
        { valid := true, used_global := true }
      else { valid := false, used_global := false }
  | none =>
      if password_hash = global_password_hash then
        { valid := true, used_global := true }
      else { valid := false, used_global := false }

/-- Claim C4 as stated: with a stored per-session password, access is
granted exactly when the presented hash equals that password's digest
(`used_global = false`), and the global fallback applies only when the
session has no per-session password. -/
def C4Claim : Prop :=
  ∀ (H : String → String) (stored : Option String) (ph gh : String),
    (∀ sp, stored = some sp →
      validate_session_password H stored ph gh
        = (if ph = H sp then { valid := true, used_global := false }
           else { valid := false, used_global := false }))
    ∧ (stored = none →
      validate_session_password H none ph gh
        = (if ph = gh then { valid := true, used_global := true }
           else { valid := false, used_global := false }))

/-- C4 counterexample: a session that *does* carry a per-session password
(`"p"`) still accepts the global password hash (`"g"` with identity hash),
reporting `used_global = true`, while the claim requires a rejection. -/
theorem C4_counterexample : ¬ C4Claim := by
  intro h
  have hc := (h id (some "p") "g" "g").1 "p" rfl
  revert hc
  decide

/-- C4 (amended): the per-session check wins when it matches
(`used_global = false`); the global fallback (`used_global = true`) applies
whenever the per-session check fails — both when the session has no stored
password and when a stored password's digest does not match the presented
hash. -/
theorem C4_validate_session_password_cases (H : String → String)
    (stored : Option String) (ph gh : String) :
    (∀ sp, stored = some sp → ph = H sp →
      validate_session_password H stored ph gh
        = { valid := true, used_global := false })
    ∧ (∀ sp, stored = some sp → ph ≠ H sp →
      validate_session_password H stored ph gh
        = (if ph = gh then { valid := true, used_global := true }
           else { valid := false, used_global := false }))
    ∧ (stored = none →
      validate_session_password H stored ph gh
        = (if ph = gh then { valid := true, used_global := true }
           else { valid := false, used_global := false })) := by
  refine ⟨?_, ?_, ?_⟩
  · intro sp hst hph
    subst hst
    simp [validate_session_password, hph]
  · intro sp hst hph
    subst hst
    simp [validate_session_password, hph]
  · intro hst
    subst hst
    simp [validate_session_password]

/-- C4 witness: with identity as the digest function, a stored password
`"p"`: the matching hash is accepted without the global flag, and the
global hash is accepted through the fallback with `used_global = true`. -/
theorem C4_validate_session_password_cases_witness :
    validate_session_password id (some "p") "p" "g"
      = { valid := true, used_global := false }
    ∧ validate_session_password id (some "p") "g" "g"
      = { valid := true, used_global := true }
    ∧ validate_session_password id none "g" "g"
      = { valid := true, used_global := true } := by
  have h1 := (C4_validate_session_password_cases id (some "p") "p" "g").1 "p" rfl rfl
  have h2 := (C4_validate_session_password_cases id (some "p") "g" "g").2.1 "p" rfl
    (by decide)
  have h3 := (C4_validate_session_password_cases id none "g" "g").2.2 rfl
  refine ⟨h1, ?_, ?_⟩
  · rw [h2]; rfl
  · rw [h3]; rfl

/-! ## Viewer enum discovery (session_viewer/backend/main.py,
get_enum_values / get_metadata_fields) -/

/-- Lexicographic order on character lists by code point, the order Python
`sorted` uses on strings; written so that it evaluates by kernel
reduction. -/
def charListLe : List Char → List Char → Bool
  | [], _ => true
  | _ :: _, [] => false
  | c :: cs, d :: ds =>
      if c.val < d.val then true
      else if d.val < c.val then false
      else charListLe cs ds

/-- String comparison used by the sort. -/
def strLe (a b : String) : Bool :=
  charListLe a.data b.data

/-- Insertion of a string into a sorted list (ascending). -/
def insertSorted (x : String) : List String → List String
  | [] => [x]
  | y :: ys => if strLe x y then x :: y :: ys else y :: insertSorted x ys

/-- `sorted(distinct_values, key=str)`: insertion sort on the string form
(the values here are already strings). -/
def sortStrings (l : List String) : List String :=
  l.foldr insertSorted []

/-- `get_enum_values`: `none` when the distinct count exceeds `max_values`,
otherwise the sorted distinct values. -/
def get_enum_values (distinct_values : List String) (max_values : Nat) :
    Option (List String) :=
  if distinct_values.length > max_values then none
  else some (sortStrings distinct_values)

/-- One entry of the metadata-fields response. -/
structure FieldInfo where
  field : String
  type : String
  values : Option (List String)
deriving Repr, DecidableEq

/-- The per-field body of `get_metadata_fields`: `values` is queried only
for configured enum fields, and the type is promoted to `"enum"` only when
`values` is truthy (non-`None` *and* non-empty, per Python `if values:`);
`base_type` is the type inferred by `detect_field_type`, and
`distinct_values` the result of the `distinct` call. -/
def metadata_field_info (enum_fields : List String) (enum_max_values : Nat)
    (field_name : String) (base_type : String) (distinct_values : List String) :
    FieldInfo :=
  let values : Option (List String) :=
    if field_name ∈ enum_fields then get_enum_values distinct_values enum_max_values
    else none
  let field_type : String :=
    match values with
    | some vs => if vs.isEmpty then base_type else "enum"
    | none => base_type
  { field := field_name, type := field_type, values := values }

/-- Claim C8 as stated: an enum-eligible field whose distinct count is at
most the ceiling is reported with type `"enum"` and the sorted values; a
count above the ceiling keeps the base type with no values list. -/
def C8Claim : Prop :=
  ∀ (enum_fields : List String) (ceiling : Nat) (field base : String)
    (distinct : List String), field ∈ enum_fields →
    (distinct.length ≤ ceiling →
      metadata_field_info enum_fields ceiling field base distinct
        = { field := field, type := "enum", values := some (sortStrings distinct) })
    ∧ (distinct.length > ceiling →
      metadata_field_info enum_fields ceiling field base distinct
        = { field := field, type := base, values := none })

/-- C8 counterexample: an enum-eligible field with *zero* distinct values
(0 ≤ ceiling) is not promoted — `get_enum_values` returns the empty list,
which is falsy under `if values:`, so the base type is kept. -/
theorem C8_counterexample : ¬ C8Claim := by
  intro h
  have hc := (h ["metadata.status"] 50 "metadata.status" "string" []
    (by simp)).1 (by decide)
  have : "string" = "enum" := congrArg FieldInfo.type hc
  revert this
  decide

theorem sortStrings_length (l : List String) :
    (sortStrings l).length = l.length := by
  have hins : ∀ (x : String) (ys : List String),
      (insertSorted x ys).length = ys.length + 1 := by
    intro x ys
    induction ys with
    | nil => rfl
    | cons y ys ih =>
      by_cases h : strLe x y = true <;> simp [insertSorted, h, ih]
  induction l with
  | nil => rfl
  | cons x xs ih => simp [sortStrings, hins] at ih ⊢; exact ih

/-- C8 (amended): for an enum-eligible field, a distinct count between 1 and
the ceiling (the ceiling itself included) is promoted to `"enum"` with the
sorted values; a count above the ceiling keeps the base type with no values
list; and a field with no values at all keeps its base type (with an empty
values list), because the empty list is falsy in the promotion test. -/
theorem C8_enum_promotion (enum_fields : List String) (ceiling : Nat)
    (field base : String) (distinct : List String) (hmem : field ∈ enum_fields) :
    (distinct ≠ [] → distinct.length ≤ ceiling →
      metadata_field_info enum_fields ceiling field base distinct
        = { field := field, type := "enum", values := some (sortStrings distinct) })
    ∧ (distinct.length > ceiling →
      metadata_field_info enum_fields ceiling field base distinct
        = { field := field, type := base, values := none })
    ∧ (distinct = [] →
      metadata_field_info enum_fields ceiling field base distinct
        = { field := field, type := base, values := some [] }) := by
  refine ⟨?_, ?_, ?_⟩
  · intro hne hle
    have hnotgt : ¬ distinct.length > ceiling := by omega
    have hsne : ¬ (sortStrings distinct).isEmpty = true := by
      rw [List.isEmpty_iff_length_eq_zero, sortStrings_length]
      simpa [List.length_eq_zero] using hne
    simp [metadata_field_info, get_enum_values, hmem, hnotgt, hsne]
  · intro hgt
    have : distinct.length > ceiling := hgt
    simp [metadata_field_info, get_enum_values, hmem, this]
  · intro he
    subst he
    simp [metadata_field_info, get_enum_values, hmem, sortStrings]

/-- C8 witness: ceiling 2 — two distinct values (count = ceiling) are
promoted and sorted, three are not. -/
theorem C8_enum_promotion_witness :
    metadata_field_info ["metadata.status"] 2 "metadata.status" "string"
        ["pending", "active"]
      = { field := "metadata.status", type := "enum",
          values := some ["active", "pending"] }
    ∧ metadata_field_info ["metadata.status"] 2 "metadata.status" "string"
        ["pending", "active", "failed"]
      = { field := "metadata.status", type := "string", values := none } := by
  have h := C8_enum_promotion ["metadata.status"] 2 "metadata.status" "string"
    ["pending", "active"] (by simp)
  have h' := C8_enum_promotion ["metadata.status"] 2 "metadata.status" "string"
    ["pending", "active", "failed"] (by simp)
  refine ⟨?_, h'.2.1 (by decide)⟩
  have := h.1 (by simp) (by decide)
  rw [this]
  decide

/-! ## Metadata tool (mongodb_session_manager.py, _handle_metadata_get /
_handle_metadata_delete) -/

/-- The outcome of a metadata tool action: each constructor corresponds to
one return site of the Python handlers, carrying the data interpolated into
the returned message. -/
inductive MetaToolResult where
  | noMetadataDoc
  | retrieved (pairs : Meta)
  | noneForKeys (keys : List String)
  | allMetadata (pairs : Meta)
  | noMetadataStored
  | errorKeysRequired
  | deleted (keys : List String)
deriving Repr, DecidableEq

/-- `_handle_metadata_get`: `stored` is the metadata subtree of the session
document (`none` when the document is missing or carries no `metadata`
key); `keys` is the optional key-list argument of the tool. -/
def handle_metadata_get (stored : Option Meta) (keys : Option (List String)) :
    MetaToolResult :=
  match stored with
  | none => MetaToolResult.noMetadataDoc
  | some metadata_dict =>
      let ks := keys.getD []
      if ks ≠ [] then
        let filtered :=
          ks.filterMap (fun k => (getKey metadata_dict k).map (fun v => (k, v)))
        if filtered ≠ [] then MetaToolResult.retrieved filtered
        else MetaToolResult.noneForKeys ks
      else
        if metadata_dict ≠ [] then MetaToolResult.allMetadata metadata_dict
        else MetaToolResult.noMetadataStored

/-- `_handle_metadata_delete`: with a falsy key list the handler returns the
error string without touching the store; otherwise it issues the
`delete_metadata` write and reports the deleted keys. -/
def handle_metadata_delete (doc : SessionDoc) (keys : Option (List String)) :
    SessionDoc × MetaToolResult :=
  match keys with
  | none => (doc, MetaToolResult.errorKeysRequired)
  | some ks =>
      if ks = [] then (doc, MetaToolResult.errorKeysRequired)
      else (delete_metadata doc ks, MetaToolResult.deleted ks)

/-- The keys named in a tool reply (only the `noneForKeys` and `deleted`
messages list keys). -/
def mentionsKeys (r : MetaToolResult) : List String :=
  match r with
  | MetaToolResult.noneForKeys ks => ks
  | MetaToolResult.deleted ks => ks
  | _ => []

/-- Claim C9 as stated: `get` with no keys returns all stored metadata,
`get` with keys returns exactly the present pairs *and reports every absent
requested key*, and `delete` with no keys errors without deleting. -/
def C9Claim : Prop :=
  (∀ md : Meta, md ≠ [] →
    handle_metadata_get (some md) none = MetaToolResult.allMetadata md)
  ∧ (∀ (md : Meta) (ks : List String), ks ≠ [] →
      (handle_metadata_get (some md) (some ks)
          = MetaToolResult.retrieved
              (ks.filterMap (fun k => (getKey md k).map (fun v => (k, v))))
        ∨ handle_metadata_get (some md) (some ks) = MetaToolResult.noneForKeys ks)
      ∧ (∀ k, k ∈ ks → getKey md k = none →
          k ∈ mentionsKeys (handle_metadata_get (some md) (some ks))))
  ∧ (∀ doc : SessionDoc,
      handle_metadata_delete doc none = (doc, MetaToolResult.errorKeysRequired)
      ∧ handle_metadata_delete doc (some [])
          = (doc, MetaToolResult.errorKeysRequired))

/-- C9 counterexample: requesting keys `["a", "b"]` against metadata
`{a: 1}` returns the present pair only — the reply does not mention the
absent key `b`, because the absent-keys message is produced only when *no*
requested key is present. -/
theorem C9_counterexample : ¬ C9Claim := by
  intro h
  have hc := (h.2.1 [("a", "1")] ["a", "b"] (by simp)).2 "b" (by simp) (by decide)
  revert hc
  decide

/-- C9 (amended): `get` with no keys returns all stored metadata (a
distinguished empty-bag message when there is none); `get` with keys
returns exactly the present pairs, and reports the requested keys as
missing only when *none* of them is present; `delete` with a missing or
empty key list errors and leaves the document untouched. -/
theorem C9_metadata_tool (md : Meta) (ks : List String) (doc : SessionDoc)
    (hks : ks ≠ []) :
    handle_metadata_get (some md) none
      = (if md = [] then MetaToolResult.noMetadataStored
         else MetaToolResult.allMetadata md)
    ∧ handle_metadata_get (some md) (some ks)
      = (if ks.filterMap (fun k => (getKey md k).map (fun v => (k, v))) = []
         then MetaToolResult.noneForKeys ks
         else MetaToolResult.retrieved
            (ks.filterMap (fun k => (getKey md k).map (fun v => (k, v)))))
    ∧ handle_metadata_get none (some ks) = MetaToolResult.noMetadataDoc
    ∧ handle_metadata_delete doc none = (doc, MetaToolResult.errorKeysRequired)
    ∧ handle_metadata_delete doc (some [])
        = (doc, MetaToolResult.errorKeysRequired)
    ∧ handle_metadata_delete doc (some ks)
        = (delete_metadata doc ks, MetaToolResult.deleted ks) := by
  refine ⟨?_, ?_, rfl, rfl, rfl, ?_⟩
  · by_cases h : md = [] <;> simp [handle_metadata_get, h]
  · by_cases h : ks.filterMap (fun k => (getKey md k).map (fun v => (k, v))) = [] <;>
      simp [handle_metadata_get, hks, h]
  · simp [handle_metadata_delete, hks]

/-- C9 witness: metadata `{a: 1}` with requested keys `["a", "b"]` yields
the present pair; the empty delete errors on `doc0`. -/
theorem C9_metadata_tool_witness :
    handle_metadata_get (some [("a", "1")]) (some ["a", "b"])
      = MetaToolResult.retrieved [("a", "1")]
    ∧ handle_metadata_get (some [("a", "1")]) none
      = MetaToolResult.allMetadata [("a", "1")]
    ∧ handle_metadata_delete doc0 (some [])
      = (doc0, MetaToolResult.errorKeysRequired) := by
  have h := C9_metadata_tool [("a", "1")] ["a", "b"] doc0 (by simp)
  refine ⟨?_, ?_, h.2.2.2.2.1⟩
  · rw [h.2.1]; decide
  · rw [h.1]; decide
